import Mathlib

/-
Verification of the `brickblock` Space store (src/brickblock/space.py).

Coordinates are embedded as exact rationals (the Python code uses numpy
floats; all claims here are about structural/arithmetic behaviour that is
exact on the inputs considered). The dense numpy array
`cuboid_coordinates` of shape (capacity, 6, 4, 3) is embedded as an
explicit `capacity : Nat` together with the list of the first
`primitive_counter` rows (trailing rows of the numpy array are always the
zero padding produced by `np.zeros`/`resize` and are never read).

`brickblock/index.py` (class SpaceIndex) and `brickblock/objects.py`
(Cube, Cuboid, CompositeCube) are not part of the sources; the pieces of
them that the claims need are modelled from the spec, and are marked as
such in their doc comments.
-/

/-- A 3D point (one row of the innermost numpy axis). -/
abbrev Vec3 : Type := ℚ × ℚ × ℚ

def vadd (a b : Vec3) : Vec3 := (a.1 + b.1, a.2.1 + b.2.1, a.2.2 + b.2.2)

def vdiv (a : Vec3) (q : ℚ) : Vec3 := (a.1 / q, a.2.1 / q, a.2.2 / q)

def vmin (a b : Vec3) : Vec3 :=
  (min a.1 b.1, min a.2.1 b.2.1, min a.2.2 b.2.2)

def vmax (a b : Vec3) : Vec3 :=
  (max a.1 b.1, max a.2.1 b.2.1, max a.2.2 b.2.2)

def vsum (l : List Vec3) : Vec3 := l.foldl vadd (0, 0, 0)

/-- `np.mean(points, axis=0)` over a list of 3D points. -/
def vmean (l : List Vec3) : Vec3 := vdiv (vsum l) (l.length : ℚ)

/-- Per-axis minimum of a nonempty list of points (`np.min(..., axis=0)`). -/
def vminList : List Vec3 → Vec3
  | [] => (0, 0, 0)
  | v :: rest => rest.foldl vmin v

/-- Per-axis maximum of a nonempty list of points (`np.max(..., axis=0)`). -/
def vmaxList : List Vec3 → Vec3
  | [] => (0, 0, 0)
  | v :: rest => rest.foldl vmax v

/-- One face: a list of vertices (4 in well-formed data). -/
abbrev Face : Type := List Vec3

/-- One primitive's geometry: its faces (6×4×3 in well-formed data). -/
abbrev PrimGeom : Type := List Face

/-- All points of one primitive's faces, flattened. -/
def primPoints (p : PrimGeom) : List Vec3 := p.flatten

/-- All points of a block of primitives, flattened
(`composite.faces.reshape((-1, 3))`). -/
def compPoints (fs : List PrimGeom) : List Vec3 := (fs.map primPoints).flatten

/-- A visual-metadata scalar (colors are strings, widths/alphas numbers). -/
inductive VMVal : Type
  | str (s : String)
  | num (q : ℚ)
deriving DecidableEq

/-- A Python `slice(start, stop)` as used for composite id ranges. -/
structure SliceRange : Type where
  start : Nat
  stop : Nat
deriving DecidableEq

/-- The change-log entry types (`Addition`, `Mutation`, `Deletion` in
space.py). The `subject` of a Mutation is a coordinate or a before/after
pair of property mappings. -/
inductive SpaceStateChange : Type
  | addition (timestep_id : Nat) (name : Option String)
  | mutation (name : Option String) (primitive_id : Option Nat)
      (timestep_id : Option Nat) (scene_id : Option Nat)
      (subject : List ℚ ⊕ (List (String × VMVal) × List (String × VMVal)))
  | deletion (timestep_id : Nat) (name : Option String)
deriving DecidableEq

/-- Modelled from the spec: the Temporal/Scene Index (`SpaceIndex` in
brickblock/index.py, which is not under the given sources). It records,
for every primitive id and every composite range, the `(time_step,
scene_id)` at which it was registered, in registration order. Following
the spec's design notes, the insertion-order traversals `primitives()` /
`composites()` are lazy shared cursors that persist across calls (the
documented stateful-selection hazard), embedded here as explicit cursor
positions. -/
structure SpaceIndex : Type where
  primRecords : List (Nat × Nat × Nat)
  compRecords : List (SliceRange × Nat × Nat)
  primCursor : Nat
  compCursor : Nat
deriving DecidableEq

/-- Modelled from the spec: `SpaceIndex.add_primitive_to_index`. -/
def SpaceIndex.add_primitive_to_index (ix : SpaceIndex)
    (id ts scene : Nat) : SpaceIndex :=
  { ix with primRecords := ix.primRecords ++ [(id, ts, scene)] }

/-- Modelled from the spec: `SpaceIndex.add_composite_to_index`. -/
def SpaceIndex.add_composite_to_index (ix : SpaceIndex)
    (sl : SliceRange) (ts scene : Nat) : SpaceIndex :=
  { ix with compRecords := ix.compRecords ++ [(sl, ts, scene)] }

/-- Modelled from the spec: `next(self.cuboid_index.primitives(), None)` —
the next primitive id under the shared insertion-order cursor, advancing
the cursor; `none` when exhausted. -/
def SpaceIndex.nextPrimitive (ix : SpaceIndex) : Option Nat × SpaceIndex :=
  match ix.primRecords.get? ix.primCursor with
  | none => (none, ix)
  | some r => (some r.1, { ix with primCursor := ix.primCursor + 1 })

/-- Modelled from the spec: `next(self.cuboid_index.composites(), None)` —
the next composite range under the shared insertion-order cursor. -/
def SpaceIndex.nextComposite (ix : SpaceIndex) :
    Option SliceRange × SpaceIndex :=
  match ix.compRecords.get? ix.compCursor with
  | none => (none, ix)
  | some r => (some r.1, { ix with compCursor := ix.compCursor + 1 })

/-- Modelled from the spec: `SpaceIndex.current_scene_is_valid(n)` — the
scene about to be closed (scene id `n - 1`) has recorded at least one
registration. -/
def SpaceIndex.current_scene_is_valid (ix : SpaceIndex)
    (expectedNumScenes : Nat) : Bool :=
  ix.primRecords.any (fun r => r.2.2 = expectedNumScenes - 1) ||
  ix.compRecords.any (fun r => r.2.2 = expectedNumScenes - 1)

/-- The distinct failure modes of the embedded operations (each a distinct
Python exception in space.py). -/
inductive BBError : Type
  | duplicateName
  | noIdsForName
  | unknownProperty
  | invalidScene
  | notImplemented
  | malformedCoordinate
  | unboundName
  | indexError
deriving DecidableEq

/-- Modelled from the spec: the input contract of a primitive
(`Cube`/`Cuboid` in brickblock/objects.py, not under the given sources):
its face array, its vertex set (used for the centroid), its bounding box
as per-axis (mins, maxes), its visual-property mapping, and an optional
name. -/
structure Cube : Type where
  faces : PrimGeom
  points : List Vec3
  boundingBox : Vec3 × Vec3
  visualMetadata : List (String × VMVal)
  name : Option String
deriving DecidableEq

/-- Modelled from the spec: the input contract of a composite
(`CompositeCube` in brickblock/objects.py): a k-row face block, a style
tag, a visual-property mapping and an optional name. -/
structure CompositeCube : Type where
  faces : List PrimGeom
  style : String
  visualMetadata : List (String × VMVal)
  name : Option String
deriving DecidableEq

/-- The Space state (class `Space` in space.py). `dims` (a (3,2) numpy
array of per-axis [min, max]) is split into `dimsMin`/`dimsMax`;
`cuboid_coordinates` is split into `capacity` and the list `store` of its
first `primitive_counter` rows; the dicts are insertion-ordered
association lists, as in Python. -/
structure Space : Type where
  dimsMin : Vec3
  dimsMax : Vec3
  mean : Vec3
  total : Vec3
  num_objs : Nat
  primitive_counter : Nat
  time_step : Nat
  scene_counter : Nat
  capacity : Nat
  store : List PrimGeom
  cuboid_visual_metadata : List (String × List VMVal)
  cuboid_index : SpaceIndex
  cuboid_names : List (String × (Option (List Nat) × Option (List SliceRange)))
  changelog : List SpaceStateChange
deriving DecidableEq

/-- `Space.__init__`. -/
def Space.init : Space :=
  { dimsMin := (0, 0, 0)
    dimsMax := (0, 0, 0)
    mean := (0, 0, 0)
    total := (0, 0, 0)
    num_objs := 0
    primitive_counter := 0
    time_step := 0
    scene_counter := 0
    capacity := 10
    store := []
    cuboid_visual_metadata := []
    cuboid_index := ⟨[], [], 0, 0⟩
    cuboid_names := []
    changelog := [] }

/-- Lookup in the insertion-ordered dict `cuboid_visual_metadata`. -/
def vmLookup (vm : List (String × List VMVal)) (k : String) :
    Option (List VMVal) :=
  (vm.find? (fun p => p.1 = k)).map Prod.snd

/-- `self.cuboid_visual_metadata[key].extend([value] * n)` when `key` is
present, else `self.cuboid_visual_metadata[key] = [value] * n` (a new dict
key is appended at the end, as Python dicts are insertion-ordered). With
`n = 1` this is the per-primitive `append` branch of the source. -/
def vmExtend (vm : List (String × List VMVal)) (k : String) (v : VMVal)
    (n : Nat) : List (String × List VMVal) :=
  if (vm.find? (fun p => p.1 = k)).isSome then
    vm.map (fun p => if p.1 = k then (p.1, p.2 ++ List.replicate n v) else p)
  else
    vm ++ [(k, List.replicate n v)]

/-- `self.cuboid_visual_metadata[key][primitive_id] = value` (in-range
single-element overwrite; the ids come from valid selections). -/
def vmUpdateAt (vm : List (String × List VMVal)) (k : String) (i : Nat)
    (v : VMVal) : List (String × List VMVal) :=
  vm.map (fun p => if p.1 = k then (p.1, p.2.set i v) else p)

/-- `self.cuboid_visual_metadata[key][composite_id] = [value] * N` —
Python list-slice assignment `l[start:stop] = vals` is
`l[:start] + vals + l[stop:]` with clipping, which `take`/`drop` mirror. -/
def vmUpdateRange (vm : List (String × List VMVal)) (k : String)
    (sl : SliceRange) (v : VMVal) : List (String × List VMVal) :=
  vm.map (fun p =>
    if p.1 = k then
      (p.1, p.2.take sl.start ++
        List.replicate (sl.stop - sl.start) v ++ p.2.drop sl.stop)
    else p)

/-- `Space._add_name`: register `object_ids` under `name` when a name is
given; it is an error to rebind a name or to name an entity with no ids. -/
def add_name (names : List (String × (Option (List Nat) × Option (List SliceRange))))
    (name : Option String)
    (object_ids : Option (List Nat) × Option (List SliceRange)) :
    Except BBError (List (String × (Option (List Nat) × Option (List SliceRange)))) :=
  match name with
  | none => .ok names
  | some n =>
    if (names.find? (fun p => p.1 = n)).isSome then
      .error .duplicateName
    else if object_ids.1.isNone && object_ids.2.isNone then
      .error .noIdsForName
    else
      .ok (names ++ [(n, object_ids)])

/-- `Space._update_bounds`: widen `dims` by the per-axis extrema of all
points of the stored rows `[primitive_ids.start : primitive_ids.stop)`. -/
def Space.update_bounds (s : Space) (primitive_ids : SliceRange) : Space :=
  let prims :=
    (s.store.drop primitive_ids.start).take
      (primitive_ids.stop - primitive_ids.start)
  let pts := compPoints prims
  { s with
    dimsMin := vmin s.dimsMin (vminList pts)
    dimsMax := vmax s.dimsMax (vmaxList pts) }

/-- `Space._add_cuboid_primitive`: fold the primitive's centroid into
`total`/`mean`, widen `dims` by its bounding box, grow the coordinate
array if full, write the row, append its visual metadata, register it in
the index, and advance `primitive_counter`; returns the new id. The write
`cuboid_coordinates[pc] = faces` fails (numpy IndexError) exactly when
`pc` is not below the (possibly grown) capacity — unreachable from
reachable states, but kept for faithfulness. -/
def Space.add_cuboid_primitive (s : Space) (cuboid : Cube) :
    (Option BBError × Space) × Nat :=
  let cuboid_mean := vmean cuboid.points
  let total' := vadd s.total cuboid_mean
  let mean' := vdiv total' ((s.primitive_counter : ℚ) + 1)
  let dims' :=
    if s.primitive_counter = 0 then cuboid.boundingBox
    else (vmin s.dimsMin cuboid.boundingBox.1,
          vmax s.dimsMax cuboid.boundingBox.2)
  let cap' :=
    if s.primitive_counter ≥ s.capacity then 2 * s.capacity else s.capacity
  if s.primitive_counter < cap' then
    let store' := s.store ++ [cuboid.faces]
    let vm' := cuboid.visualMetadata.foldl
      (fun vm kv => vmExtend vm kv.1 kv.2 1) s.cuboid_visual_metadata
    let ix' := s.cuboid_index.add_primitive_to_index
      s.primitive_counter s.time_step s.scene_counter
    ((none,
      { s with
        total := total', mean := mean'
        dimsMin := dims'.1, dimsMax := dims'.2
        capacity := cap', store := store'
        cuboid_visual_metadata := vm'
        cuboid_index := ix'
        primitive_counter := s.primitive_counter + 1 }),
      s.primitive_counter)
  else
    ((some .indexError,
      { s with
        total := total', mean := mean'
        dimsMin := dims'.1, dimsMax := dims'.2
        capacity := cap' }),
      s.primitive_counter)

/-- `Space.add_cube`. A raised exception leaves the partially updated
state in place, so failures carry the state alongside the error. -/
def Space.add_cube (s : Space) (cube : Cube) : Option BBError × Space :=
  match s.add_cuboid_primitive cube with
  | ((some e, s1), _) => (some e, s1)
  | ((none, s1), primitive_id) =>
    match add_name s1.cuboid_names cube.name (some [primitive_id], none) with
    | .error e => (some e, s1)
    | .ok names' =>
      let s2 := { s1 with
        cuboid_names := names'
        num_objs := s1.num_objs + 1
        changelog := s1.changelog ++
          [SpaceStateChange.addition s1.time_step none] }
      let s3 := { s2 with time_step := s2.time_step + 1 }
      (none, s3.update_bounds ⟨primitive_id, primitive_id + 1⟩)

/-- `Space.add_cuboid` — its body is line-for-line the body of
`Space.add_cube` (only the argument's Python type differs). -/
def Space.add_cuboid (s : Space) (cuboid : Cube) : Option BBError × Space :=
  s.add_cube cuboid

/-- One pass of the doubling loop of `add_composite`
(`while (2 * current_no_of_entries) < num_cubes: ...`), with structural
fuel: `k` passes always suffice, since the value at least doubles per pass
and the capacity it starts from is positive (10 at creation, afterwards
only ever doubled). -/
def growLoopFuel : Nat → Nat → Nat → Nat
  | 0, c, _ => c
  | fuel + 1, c, k => if 2 * c < k then growLoopFuel fuel (2 * c) k else c

/-- The doubling loop of `add_composite`:
`while (2 * current_no_of_entries) < num_cubes: current_no_of_entries *= 2`. -/
def growLoop (c k : Nat) : Nat := growLoopFuel k c k

/-- The capacity of the coordinate store after `add_composite`'s growth
step: unchanged when `primitive_counter + num_cubes` stays below the
current capacity, else `2 *` the result of the doubling loop. -/
def grownCapacity (cap pc k : Nat) : Nat :=
  if pc + k ≥ cap then 2 * growLoop cap k else cap

/-- `Space.add_composite`, line by line from the source: bounds-tracker
update (centroid over all flattened points, extrema over only the first
face of the first row and the last face of the last row), capacity growth,
the bulk row write (`cuboid_coordinates[base:offset] = composite.faces`,
which fails with a numpy broadcast error exactly when `offset` exceeds the
grown capacity, the slice then being shorter than `num_cubes`), visual
metadata, counter/index updates, the style check, naming, change log,
and the final `_update_bounds`. -/
def Space.add_composite (s : Space) (composite : CompositeCube) :
    Option BBError × Space :=
  let num_cubes := composite.faces.length
  let total' := vadd s.total (vmean (compPoints composite.faces))
  let mean' := vdiv total' ((s.primitive_counter : ℚ) + 1)
  let composite_points :=
    ((composite.faces.headD []).headD []) ++
    ((composite.faces.getLastD []).getLastD [])
  let composite_extrema :=
    (vminList composite_points, vmaxList composite_points)
  let dims' :=
    if s.primitive_counter = 0 then composite_extrema
    else (vmin s.dimsMin composite_extrema.1,
          vmax s.dimsMax composite_extrema.2)
  let cap' := grownCapacity s.capacity s.primitive_counter num_cubes
  let s1 := { s with
    total := total', mean := mean'
    dimsMin := dims'.1, dimsMax := dims'.2
    capacity := cap' }
  if s.primitive_counter + num_cubes ≤ cap' then
    let store' := s1.store ++ composite.faces
    let vm' := composite.visualMetadata.foldl
      (fun vm kv => vmExtend vm kv.1 kv.2 num_cubes)
      s1.cuboid_visual_metadata
    let primitive_ids : SliceRange :=
      ⟨s.primitive_counter, s.primitive_counter + num_cubes⟩
    let ix' := s1.cuboid_index.add_composite_to_index
      primitive_ids s.time_step s.scene_counter
    let s2 := { s1 with
      store := store'
      cuboid_visual_metadata := vm'
      primitive_counter := s.primitive_counter + num_cubes
      cuboid_index := ix' }
    if composite.style = "classic" then
      (some .notImplemented, s2)
    else
      match add_name s2.cuboid_names composite.name
          (none, some [primitive_ids]) with
      | .error e => (some e, s2)
      | .ok names' =>
        let s3 := { s2 with
          cuboid_names := names'
          num_objs := s2.num_objs + 1
          changelog := s2.changelog ++
            [SpaceStateChange.addition s2.time_step none] }
        let s4 := { s3 with time_step := s3.time_step + 1 }
        (none, s4.update_bounds primitive_ids)
  else
    (some .indexError, s1)

/-- `Space._mutate_by_ids`: for each `(key, value)` pair in order, fail if
the key is unknown to the visual metadata store (leaving the updates of
the earlier keys in place), else overwrite the key's value at every
selected primitive id and broadcast it over every selected composite
range. -/
def Space.mutate_by_ids (s : Space) (primitive_ids : List Nat)
    (composite_ids : List SliceRange) :
    List (String × VMVal) → Option BBError × Space
  | [] => (none, s)
  | (key, val) :: rest =>
    if (vmLookup s.cuboid_visual_metadata key).isSome then
      let vm1 := primitive_ids.foldl
        (fun vm i => vmUpdateAt vm key i val) s.cuboid_visual_metadata
      let vm2 := composite_ids.foldl
        (fun vm sl => vmUpdateRange vm key sl val) vm1
      Space.mutate_by_ids { s with cuboid_visual_metadata := vm2 }
        primitive_ids composite_ids rest
    else
      (some .unknownProperty, s)

/-- `Space._select_by_name`. -/
def Space.select_by_name (s : Space) (name : String) :
    Except BBError (List Nat × List SliceRange) :=
  match s.cuboid_names.find? (fun p => p.1 = name) with
  | none => .error .unboundName
  | some (_, ids) => .ok (ids.1.getD [], ids.2.getD [])

/-- `Space.mutate_by_name`. -/
def Space.mutate_by_name (s : Space) (name : String)
    (kwargs : List (String × VMVal)) : Option BBError × Space :=
  match s.select_by_name name with
  | .error e => (some e, s)
  | .ok (ps, cs) => s.mutate_by_ids ps cs kwargs

/-- One match `idx` against the primitive cursor: `if primitive_id is not
None and primitive_id == idx`, append it and advance the iterator. -/
def walkStepPrim (idx : Nat) (pid : Option Nat) (ix : SpaceIndex)
    (accP : List Nat) : Option Nat × SpaceIndex × List Nat :=
  match pid with
  | some p =>
    if p = idx then
      (ix.nextPrimitive.1, ix.nextPrimitive.2, accP ++ [p])
    else (some p, ix, accP)
  | none => (none, ix, accP)

/-- One match `idx` against the composite cursor: `if composite_slice is
not None and composite_slice.start == idx`, append it and advance. -/
def walkStepComp (idx : Nat) (cs : Option SliceRange) (ix : SpaceIndex)
    (accC : List SliceRange) :
    Option SliceRange × SpaceIndex × List SliceRange :=
  match cs with
  | some c =>
    if c.start = idx then
      (ix.nextComposite.1, ix.nextComposite.2, accC ++ [c])
    else (some c, ix, accC)
  | none => (none, ix, accC)

/-- The matching loop of `_select_by_coordinate`: walk the sorted match
list in lock-step with the index's shared insertion-order cursors,
emitting a match as a primitive (resp. composite) only when it equals the
cursor's current head (resp. the head range's start); the cursors advance
only on a match. -/
def selectWalk : List Nat → Option Nat → Option SliceRange → SpaceIndex →
    List Nat → List SliceRange → List Nat × List SliceRange × SpaceIndex
  | [], _, _, ix, accP, accC => (accP, accC, ix)
  | idx :: rest, pid, cs, ix, accP, accC =>
    let s1 := walkStepPrim idx pid ix accP
    let s2 := walkStepComp idx cs s1.2.1 accC
    selectWalk rest s1.1 s2.1 s2.2.1 s1.2.2 s2.2.2

/-- The first vertex of the first face of a stored row
(`primitive[0, 0]`), the row's "base vector". -/
def baseVec (p : PrimGeom) : Vec3 := (p.headD []).headD (0, 0, 0)

/-- The ids (in increasing order) of stored rows whose base vector equals
`target` (`np.array_equal(primitive[0, 0], coordinate)`). -/
def Space.matchingBaseVectors (s : Space) (target : Vec3) : List Nat :=
  (List.range s.primitive_counter).filter
    (fun i => baseVec (s.store.getD i []) = target)

/-- `Space._select_by_coordinate`: reject non-3D input, permute the
caller's `(w, h, d)` to the internal `(w, d, h)`, collect the matching
ids, and separate them into primitives and composites with the lock-step
walk over the index's shared cursors (which this call therefore
advances). -/
def Space.select_by_coordinate (s : Space) (coordinate : List ℚ) :
    Option BBError × (List Nat × List SliceRange) × Space :=
  match coordinate with
  | [w, h, d] =>
    let target : Vec3 := (w, d, h)
    let matching := s.matchingBaseVectors target
    let pid := s.cuboid_index.nextPrimitive.1
    let ix1 := s.cuboid_index.nextPrimitive.2
    let cs := ix1.nextComposite.1
    let ix2 := ix1.nextComposite.2
    let res := selectWalk matching pid cs ix2 [] []
    (none, (res.1, res.2.1), { s with cuboid_index := res.2.2 })
  | _ => (some .malformedCoordinate, ([], []), s)

/-- `Space.mutate_by_coordinate`. -/
def Space.mutate_by_coordinate (s : Space) (coordinate : List ℚ)
    (kwargs : List (String × VMVal)) : Option BBError × Space :=
  match s.select_by_coordinate coordinate with
  | (some e, _, s') => (some e, s')
  | (none, (ps, cs), s') => s'.mutate_by_ids ps cs kwargs

/-- `Space.snapshot`: fail unless the scene about to be closed has
recorded activity, else advance `scene_counter`. -/
def Space.snapshot (s : Space) : Option BBError × Space :=
  if s.cuboid_index.current_scene_is_valid (s.scene_counter + 1) then
    (none, { s with scene_counter := s.scene_counter + 1 })
  else
    (some .invalidScene, s)

/-! ### Characterizations of successful operations -/

/-- A successful `_add_name` call: with no name it is a no-op; with a name
it requires the name to be fresh and appends the binding. -/
theorem add_name_ok
    (names : List (String × (Option (List Nat) × Option (List SliceRange))))
    (name : Option String)
    (ids : Option (List Nat) × Option (List SliceRange))
    (names' : List (String × (Option (List Nat) × Option (List SliceRange))))
    (h : add_name names name ids = .ok names') :
    (name = none → names' = names) ∧
    (∀ n, name = some n →
      names.find? (fun p => p.1 = n) = none ∧
      names' = names ++ [(n, ids)]) := by
  unfold add_name at h
  split at h
  · simp only [Except.ok.injEq] at h
    subst h
    simp
  · rename_i n
    split at h
    · simp at h
    · split at h
      · simp at h
      · rename_i hfind hids
        simp only [Except.ok.injEq] at h
        subst h
        refine ⟨by simp, ?_⟩
        intro m hm
        simp only [Option.some.injEq] at hm
        subst hm
        have hnone : names.find? (fun p => p.1 = n) = none := by
          cases hfo : names.find? (fun p => p.1 = n) with
          | none => rfl
          | some x =>
            rw [hfo] at hfind
            simp at hfind
        exact ⟨hnone, rfl⟩

/-- Characterization of a successful `_add_cuboid_primitive`. -/
theorem add_cuboid_primitive_ok (s : Space) (c : Cube) (s1 : Space)
    (pid : Nat) (h : s.add_cuboid_primitive c = ((none, s1), pid)) :
    pid = s.primitive_counter ∧
    s1 = { s with
      total := vadd s.total (vmean c.points)
      mean := vdiv (vadd s.total (vmean c.points))
        ((s.primitive_counter : ℚ) + 1)
      dimsMin := if s.primitive_counter = 0 then c.boundingBox.1
        else vmin s.dimsMin c.boundingBox.1
      dimsMax := if s.primitive_counter = 0 then c.boundingBox.2
        else vmax s.dimsMax c.boundingBox.2
      capacity := if s.primitive_counter ≥ s.capacity then 2 * s.capacity
        else s.capacity
      store := s.store ++ [c.faces]
      cuboid_visual_metadata := c.visualMetadata.foldl
        (fun vm kv => vmExtend vm kv.1 kv.2 1) s.cuboid_visual_metadata
      cuboid_index := s.cuboid_index.add_primitive_to_index
        s.primitive_counter s.time_step s.scene_counter
      primitive_counter := s.primitive_counter + 1 } := by
  unfold Space.add_cuboid_primitive at h
  split at h <;> split at h <;> dsimp only at h <;> split at h <;>
    simp at h <;>
    (obtain ⟨h1, h2⟩ := h
     subst h1
     subst h2
     refine ⟨rfl, ?_⟩
     simp_all
     all_goals rw [if_neg (by omega)])

/-- Field-level characterization of a successful `add_cube`. -/
theorem add_cube_ok (s : Space) (c : Cube) (s' : Space)
    (h : s.add_cube c = (none, s')) :
    s'.primitive_counter = s.primitive_counter + 1 ∧
    s'.num_objs = s.num_objs + 1 ∧
    s'.time_step = s.time_step + 1 ∧
    s'.changelog = s.changelog ++
      [SpaceStateChange.addition s.time_step none] ∧
    s'.total = vadd s.total (vmean c.points) ∧
    s'.mean = vdiv (vadd s.total (vmean c.points))
      ((s.primitive_counter : ℚ) + 1) ∧
    s'.scene_counter = s.scene_counter ∧
    s'.cuboid_index = s.cuboid_index.add_primitive_to_index
      s.primitive_counter s.time_step s.scene_counter := by
  unfold Space.add_cube at h
  split at h
  · simp at h
  · rename_i s1 pid heq
    obtain ⟨hpid, hs1⟩ := add_cuboid_primitive_ok s c s1 pid heq
    subst hpid
    subst hs1
    split at h
    · simp at h
    · rename_i names' heq2
      simp only [Prod.mk.injEq, true_and] at h
      subst h
      simp [Space.update_bounds]

theorem add_composite_ok (s : Space) (comp : CompositeCube) (s' : Space)
    (h : s.add_composite comp = (none, s')) :
    s'.primitive_counter = s.primitive_counter + comp.faces.length ∧
    s'.num_objs = s.num_objs + 1 ∧
    s'.time_step = s.time_step + 1 ∧
    s'.changelog = s.changelog ++
      [SpaceStateChange.addition s.time_step none] ∧
    s'.total = vadd s.total (vmean (compPoints comp.faces)) ∧
    s'.mean = vdiv (vadd s.total (vmean (compPoints comp.faces)))
      ((s.primitive_counter : ℚ) + 1) ∧
    s'.scene_counter = s.scene_counter ∧
    s'.cuboid_index = s.cuboid_index.add_composite_to_index
      ⟨s.primitive_counter, s.primitive_counter + comp.faces.length⟩
      s.time_step s.scene_counter ∧
    (comp.name = none → s'.cuboid_names = s.cuboid_names) ∧
    (∀ n, comp.name = some n →
      s.cuboid_names.find? (fun p => p.1 = n) = none ∧
      s'.cuboid_names = s.cuboid_names ++
        [(n, (none, some [⟨s.primitive_counter,
          s.primitive_counter + comp.faces.length⟩]))]) := by
  unfold Space.add_composite at h
  dsimp only at h
  split at h
  · split at h
    · simp at h
    · split at h
      · simp at h
      · rename_i names' heq
        have hname := add_name_ok _ _ _ _ heq
        simp only [Prod.mk.injEq, true_and] at h
        subst h
        refine ⟨by simp [Space.update_bounds], by simp [Space.update_bounds],
          by simp [Space.update_bounds], by simp [Space.update_bounds],
          by simp [Space.update_bounds], by simp [Space.update_bounds],
          by simp [Space.update_bounds], by simp [Space.update_bounds],
          ?_, ?_⟩
        · intro hn
          rw [hn] at hname
          simp [Space.update_bounds, hname.1 rfl]
        · intro n hn
          obtain ⟨hfind, happ⟩ := hname.2 n hn
          exact ⟨hfind, by simp [Space.update_bounds, happ]⟩
  · simp at h

/-- The primitive accumulator after one walk step either is unchanged or
gains exactly the current match `idx`. -/
theorem walkStepPrim_acc (idx : Nat) (pid : Option Nat) (ix : SpaceIndex)
    (accP : List Nat) :
    (walkStepPrim idx pid ix accP).2.2 = accP ∨
    (walkStepPrim idx pid ix accP).2.2 = accP ++ [idx] := by
  unfold walkStepPrim
  cases pid with
  | none => exact Or.inl rfl
  | some p =>
    by_cases hp : p = idx
    · subst hp
      simp
    · simp [hp]

/-- The composite accumulator after one walk step either is unchanged or
gains one range whose start is the current match `idx`. -/
theorem walkStepComp_acc (idx : Nat) (cs : Option SliceRange)
    (ix : SpaceIndex) (accC : List SliceRange) :
    (walkStepComp idx cs ix accC).2.2 = accC ∨
    ∃ c : SliceRange, c.start = idx ∧
      (walkStepComp idx cs ix accC).2.2 = accC ++ [c] := by
  unfold walkStepComp
  cases cs with
  | none => exact Or.inl rfl
  | some c =>
    by_cases hc : c.start = idx
    · exact Or.inr ⟨c, hc, by simp [hc]⟩
    · simp [hc]

/-- Every primitive id emitted by the walk is an accumulated one or one of
the matches. -/
theorem selectWalk_prims_subset :
    ∀ (idxs : List Nat) (pid : Option Nat) (cs : Option SliceRange)
      (ix : SpaceIndex) (accP : List Nat) (accC : List SliceRange)
      (x : Nat), x ∈ (selectWalk idxs pid cs ix accP accC).1 →
      x ∈ accP ∨ x ∈ idxs := by
  intro idxs
  induction idxs with
  | nil =>
    intro pid cs ix accP accC x hx
    exact Or.inl (by simpa [selectWalk] using hx)
  | cons idx rest ih =>
    intro pid cs ix accP accC x hx
    unfold selectWalk at hx
    have hmem := ih _ _ _ _ _ x hx
    rcases hmem with hacc | hrest
    · rcases walkStepPrim_acc idx pid ix accP with he | he
      · rw [he] at hacc
        exact Or.inl hacc
      · rw [he] at hacc
        rcases List.mem_append.1 hacc with h1 | h1
        · exact Or.inl h1
        · simp only [List.mem_singleton] at h1
          subst h1
          exact Or.inr (List.mem_cons_self _ _)
    · exact Or.inr (List.mem_cons_of_mem _ hrest)

/-- Every composite range emitted by the walk is an accumulated one or has
its start among the matches. -/
theorem selectWalk_comps_subset :
    ∀ (idxs : List Nat) (pid : Option Nat) (cs : Option SliceRange)
      (ix : SpaceIndex) (accP : List Nat) (accC : List SliceRange)
      (c : SliceRange), c ∈ (selectWalk idxs pid cs ix accP accC).2.1 →
      c ∈ accC ∨ c.start ∈ idxs := by
  intro idxs
  induction idxs with
  | nil =>
    intro pid cs ix accP accC c hc
    exact Or.inl (by simpa [selectWalk] using hc)
  | cons idx rest ih =>
    intro pid cs ix accP accC c hc
    unfold selectWalk at hc
    have hmem := ih _ _ _ _ _ c hc
    rcases hmem with hacc | hrest
    · rcases walkStepComp_acc idx cs (walkStepPrim idx pid ix accP).2.1
        accC with he | he
      · rw [he] at hacc
        exact Or.inl hacc
      · obtain ⟨c', hstart, he⟩ := he
        rw [he] at hacc
        rcases List.mem_append.1 hacc with h1 | h1
        · exact Or.inl h1
        · simp only [List.mem_singleton] at h1
          subst h1
          rw [hstart]
          exact Or.inr (List.mem_cons_self _ _)
    · exact Or.inr (List.mem_cons_of_mem _ hrest)

/-- `_mutate_by_ids` touches only the visual metadata store: every other
field of the state is unchanged, whether the call succeeds or fails. -/
theorem mutate_by_ids_only_metadata (primitive_ids : List Nat)
    (composite_ids : List SliceRange) :
    ∀ (kwargs : List (String × VMVal)) (s : Space),
      (s.mutate_by_ids primitive_ids composite_ids kwargs).2.changelog =
        s.changelog ∧
      (s.mutate_by_ids primitive_ids composite_ids kwargs).2.dimsMin =
        s.dimsMin ∧
      (s.mutate_by_ids primitive_ids composite_ids kwargs).2.dimsMax =
        s.dimsMax ∧
      (s.mutate_by_ids primitive_ids composite_ids kwargs).2.mean = s.mean ∧
      (s.mutate_by_ids primitive_ids composite_ids kwargs).2.total =
        s.total ∧
      (s.mutate_by_ids primitive_ids composite_ids kwargs).2.num_objs =
        s.num_objs ∧
      (s.mutate_by_ids primitive_ids
        composite_ids kwargs).2.primitive_counter = s.primitive_counter ∧
      (s.mutate_by_ids primitive_ids composite_ids kwargs).2.time_step =
        s.time_step ∧
      (s.mutate_by_ids primitive_ids composite_ids kwargs).2.scene_counter =
        s.scene_counter := by
  intro kwargs
  induction kwargs with
  | nil =>
    intro s
    simp [Space.mutate_by_ids]
  | cons kv rest ih =>
    intro s
    obtain ⟨key, val⟩ := kv
    unfold Space.mutate_by_ids
    split
    · exact ih _
    · simp

/-- Modelled from the spec: whether the given scene id has recorded at
least one registration in the Temporal/Scene Index. -/
def sceneHasActivity (ix : SpaceIndex) (scene : Nat) : Bool :=
  ix.primRecords.any (fun r => r.2.2 = scene) ||
  ix.compRecords.any (fun r => r.2.2 = scene)

theorem current_scene_is_valid_succ (ix : SpaceIndex) (sc : Nat) :
    ix.current_scene_is_valid (sc + 1) = sceneHasActivity ix sc := rfl

/-- A failed `_add_name` fails only as DuplicateName or as the no-ids
error. -/
theorem add_name_error
    (names : List (String × (Option (List Nat) × Option (List SliceRange))))
    (name : Option String)
    (ids : Option (List Nat) × Option (List SliceRange)) (e : BBError)
    (h : add_name names name ids = .error e) :
    e = BBError.duplicateName ∨ e = BBError.noIdsForName := by
  unfold add_name at h
  split at h
  · simp at h
  · split at h
    · simp only [Except.error.injEq] at h
      exact Or.inl h.symm
    · split at h
      · simp only [Except.error.injEq] at h
        exact Or.inr h.symm
      · simp at h

/-- A pair whose first component is `none` is the pair of its
components (used to turn a decidable success check into a success
equation without forcing the rational fields). -/
theorem eq_none_pair {α β : Type} (x : Option α × β) (h : x.1 = none) :
    x = (none, x.2) := by
  obtain ⟨a, b⟩ := x
  dsimp only at h
  subst h
  rfl

/-! ### Test fixtures -/

/-- A degenerate test cube with all vertices at `p`. -/
def cubeAt (p : Vec3) (nm : Option String) : Cube :=
  { faces := List.replicate 6 (List.replicate 4 p)
    points := [p]
    boundingBox := (p, p)
    visualMetadata := [("alpha", VMVal.num 0)]
    name := nm }

/-- A degenerate test composite of `k` rows with all vertices at `p`. -/
def compAt (k : Nat) (p : Vec3) (st : String) (nm : Option String) :
    CompositeCube :=
  { faces := List.replicate k (List.replicate 6 (List.replicate 4 p))
    style := st
    visualMetadata := [("alpha", VMVal.num 0)]
    name := nm }

/-- A space holding one cube named "a" at the origin. -/
def spaceA : Space := (Space.init.add_cube (cubeAt (0, 0, 0) (some "a"))).2

theorem nextPrimitive_records (ix : SpaceIndex) :
    ix.nextPrimitive.2.primRecords = ix.primRecords ∧
    ix.nextPrimitive.2.compRecords = ix.compRecords := by
  unfold SpaceIndex.nextPrimitive
  split <;> exact ⟨rfl, rfl⟩

theorem nextComposite_records (ix : SpaceIndex) :
    ix.nextComposite.2.primRecords = ix.primRecords ∧
    ix.nextComposite.2.compRecords = ix.compRecords := by
  unfold SpaceIndex.nextComposite
  split <;> exact ⟨rfl, rfl⟩

theorem walkStepPrim_records (idx : Nat) (pid : Option Nat)
    (ix : SpaceIndex) (accP : List Nat) :
    (walkStepPrim idx pid ix accP).2.1.primRecords = ix.primRecords ∧
    (walkStepPrim idx pid ix accP).2.1.compRecords = ix.compRecords := by
  unfold walkStepPrim
  cases pid with
  | none => exact ⟨rfl, rfl⟩
  | some p =>
    dsimp only
    by_cases hp : p = idx
    · rw [if_pos hp]
      exact nextPrimitive_records ix
    · rw [if_neg hp]
      exact ⟨rfl, rfl⟩

theorem walkStepComp_records (idx : Nat) (cs : Option SliceRange)
    (ix : SpaceIndex) (accC : List SliceRange) :
    (walkStepComp idx cs ix accC).2.1.primRecords = ix.primRecords ∧
    (walkStepComp idx cs ix accC).2.1.compRecords = ix.compRecords := by
  unfold walkStepComp
  cases cs with
  | none => exact ⟨rfl, rfl⟩
  | some c =>
    dsimp only
    by_cases hc : c.start = idx
    · rw [if_pos hc]
      exact nextComposite_records ix
    · rw [if_neg hc]
      exact ⟨rfl, rfl⟩

/-- The lock-step walk moves only the index's cursors: its records are
untouched. -/
theorem selectWalk_records :
    ∀ (idxs : List Nat) (pid : Option Nat) (cs : Option SliceRange)
      (ix : SpaceIndex) (accP : List Nat) (accC : List SliceRange),
      (selectWalk idxs pid cs ix accP accC).2.2.primRecords =
        ix.primRecords ∧
      (selectWalk idxs pid cs ix accP accC).2.2.compRecords =
        ix.compRecords := by
  intro idxs
  induction idxs with
  | nil =>
    intro pid cs ix accP accC
    exact ⟨rfl, rfl⟩
  | cons idx rest ih =>
    intro pid cs ix accP accC
    unfold selectWalk
    dsimp only
    constructor
    · rw [(ih _ _ _ _ _).1, (walkStepComp_records _ _ _ _).1,
        (walkStepPrim_records _ _ _ _).1]
    · rw [(ih _ _ _ _ _).2, (walkStepComp_records _ _ _ _).2,
        (walkStepPrim_records _ _ _ _).2]

/-- `_mutate_by_ids` rewrites only the visual metadata store: the
resulting state is the input state with (at most) that one field
replaced, whether the call succeeds or fails. -/
theorem mutate_by_ids_state (primitive_ids : List Nat)
    (composite_ids : List SliceRange) :
    ∀ (kwargs : List (String × VMVal)) (s : Space),
      (s.mutate_by_ids primitive_ids composite_ids kwargs).2 =
        { s with cuboid_visual_metadata :=
            (s.mutate_by_ids primitive_ids composite_ids
              kwargs).2.cuboid_visual_metadata } := by
  intro kwargs
  induction kwargs with
  | nil =>
    intro s
    rfl
  | cons kv rest ih =>
    intro s
    obtain ⟨key, val⟩ := kv
    unfold Space.mutate_by_ids
    split
    · exact ih _
    · rfl

/-- A `_mutate_by_ids` call whose first property is unknown fails with
the state exactly as before. -/
theorem mutate_by_ids_unknown_first (s : Space) (prims : List Nat)
    (comps : List SliceRange) (key : String) (val : VMVal)
    (rest : List (String × VMVal))
    (h : vmLookup s.cuboid_visual_metadata key = none) :
    s.mutate_by_ids prims comps ((key, val) :: rest) =
      (some BBError.unknownProperty, s) := by
  unfold Space.mutate_by_ids
  simp [h]

/-- `mutate_by_name` rewrites only the visual metadata store. -/
theorem mutate_by_name_state (s : Space) (name : String)
    (kwargs : List (String × VMVal)) :
    (s.mutate_by_name name kwargs).2 =
      { s with cuboid_visual_metadata :=
          (s.mutate_by_name name kwargs).2.cuboid_visual_metadata } := by
  unfold Space.mutate_by_name
  split
  · rfl
  · rename_i ps cs heq
    exact mutate_by_ids_state ps cs kwargs s

/-- `_select_by_coordinate` changes nothing but the index field, and in
the index only the shared cursors: its records are untouched. -/
theorem select_by_coordinate_state (s : Space) (coordinate : List ℚ) :
    (s.select_by_coordinate coordinate).2.2 =
      { s with cuboid_index :=
          (s.select_by_coordinate coordinate).2.2.cuboid_index } ∧
    (s.select_by_coordinate coordinate).2.2.cuboid_index.primRecords =
      s.cuboid_index.primRecords ∧
    (s.select_by_coordinate coordinate).2.2.cuboid_index.compRecords =
      s.cuboid_index.compRecords := by
  unfold Space.select_by_coordinate
  split
  · refine ⟨rfl, ?_, ?_⟩
    · dsimp only
      rw [(selectWalk_records _ _ _ _ _ _).1,
        (nextComposite_records _).1, (nextPrimitive_records _).1]
    · dsimp only
      rw [(selectWalk_records _ _ _ _ _ _).2,
        (nextComposite_records _).2, (nextPrimitive_records _).2]
  · exact ⟨rfl, rfl, rfl⟩

/-- `mutate_by_coordinate` is the cursor advance of its selection
followed by a metadata-only rewrite: the resulting state is the
post-selection state with (at most) the visual metadata replaced. -/
theorem mutate_by_coordinate_state (s : Space) (coordinate : List ℚ)
    (kwargs : List (String × VMVal)) :
    (s.mutate_by_coordinate coordinate kwargs).2 =
      { (s.select_by_coordinate coordinate).2.2 with
        cuboid_visual_metadata :=
          (s.mutate_by_coordinate coordinate
            kwargs).2.cuboid_visual_metadata } := by
  unfold Space.mutate_by_coordinate
  split
  · rename_i e x s' heq
    rw [heq]
  · rename_i ps cs s' heq
    rw [heq]
    exact mutate_by_ids_state ps cs kwargs s'

/-- A `mutate_by_coordinate` call on a 3-vector whose first property is
unknown fails with UnknownProperty, and its final state is exactly the
post-selection state: no store was written, but the selection has
already advanced the index's shared cursors. -/
theorem mutate_by_coordinate_unknown_first (s : Space) (w h d : ℚ)
    (key : String) (val : VMVal) (rest : List (String × VMVal))
    (hkey : vmLookup s.cuboid_visual_metadata key = none) :
    (s.mutate_by_coordinate [w, h, d] ((key, val) :: rest)).1 =
      some BBError.unknownProperty ∧
    (s.mutate_by_coordinate [w, h, d] ((key, val) :: rest)).2 =
      (s.select_by_coordinate [w, h, d]).2.2 := by
  have hkey' : vmLookup
      ((s.select_by_coordinate [w, h, d]).2.2).cuboid_visual_metadata
      key = none := hkey
  unfold Space.mutate_by_coordinate
  split
  · rename_i e x s' heq
    have hnone : (s.select_by_coordinate [w, h, d]).1 = none := rfl
    rw [heq] at hnone
    simp at hnone
  · rename_i ps cs s' heq
    have hs' : s' = (s.select_by_coordinate [w, h, d]).2.2 := by
      rw [heq]
    have hkey2 : vmLookup s'.cuboid_visual_metadata key = none := by
      rw [hs']
      exact hkey'
    rw [mutate_by_ids_unknown_first s' ps cs key val rest hkey2]
    exact ⟨rfl, hs'⟩

/-- `snapshot` changes nothing but `scene_counter`, whether it succeeds
or fails. -/
theorem snapshot_state (s : Space) :
    (s.snapshot).2 =
      { s with scene_counter := (s.snapshot).2.scene_counter } := by
  unfold Space.snapshot
  split <;> rfl

/-! ### Claims -/

/-- C1, counterexample: a second `add_cube` under an already-bound name
fails with DuplicateName, yet the primitive insertion is already
committed — `primitive_counter` differs from its value before the failed
call, so an effect of the failed call is observable afterwards. -/
theorem C1_counterexample :
    (spaceA.add_cube (cubeAt (1, 1, 1) (some "a"))).1 =
      some BBError.duplicateName ∧
    (spaceA.add_cube (cubeAt (1, 1, 1) (some "a"))).2.primitive_counter ≠
      spaceA.primitive_counter := by decide

/-- C1 (amended): among failed mutations, only those that fail before
the selection has touched any store are fully effect-free — a
`mutate_by_ids` call whose first property name is unknown, and a
`mutate_by_name` whose name is unbound or whose first property name is
unknown, return with the state exactly as before the call. A failed
`mutate_by_coordinate` is not fully effect-free: no store is written
(its final state is exactly the post-selection state, with the index's
records intact), but the selection has already advanced the index's
shared iterator cursors, an observable change. Failed insertions leave
their partial updates committed (see the counterexample). -/
theorem C1_amended_failed_mutation_no_effect :
    (∀ (s : Space) (prims : List Nat) (comps : List SliceRange)
       (key : String) (val : VMVal) (rest : List (String × VMVal)),
       vmLookup s.cuboid_visual_metadata key = none →
       s.mutate_by_ids prims comps ((key, val) :: rest) =
         (some BBError.unknownProperty, s)) ∧
    (∀ (s : Space) (name : String) (kwargs : List (String × VMVal)),
       s.cuboid_names.find? (fun p => p.1 = name) = none →
       s.mutate_by_name name kwargs = (some BBError.unboundName, s)) ∧
    (∀ (s : Space) (name key : String) (val : VMVal)
       (rest : List (String × VMVal)),
       vmLookup s.cuboid_visual_metadata key = none →
       (s.mutate_by_name name ((key, val) :: rest)).2 = s) ∧
    (∀ (s : Space) (w h d : ℚ) (key : String) (val : VMVal)
       (rest : List (String × VMVal)),
       vmLookup s.cuboid_visual_metadata key = none →
       (s.mutate_by_coordinate [w, h, d] ((key, val) :: rest)).1 =
         some BBError.unknownProperty ∧
       (s.mutate_by_coordinate [w, h, d] ((key, val) :: rest)).2 =
         (s.select_by_coordinate [w, h, d]).2.2) ∧
    (∀ (s : Space) (coordinate : List ℚ),
       (s.select_by_coordinate coordinate).2.2 =
         { s with cuboid_index :=
             (s.select_by_coordinate coordinate).2.2.cuboid_index } ∧
       (s.select_by_coordinate coordinate).2.2.cuboid_index.primRecords =
         s.cuboid_index.primRecords ∧
       (s.select_by_coordinate coordinate).2.2.cuboid_index.compRecords =
         s.cuboid_index.compRecords) ∧
    ((spaceA.mutate_by_coordinate [9, 9, 9]
        [("ghost", VMVal.num 1)]).1 = some BBError.unknownProperty ∧
     (spaceA.mutate_by_coordinate [9, 9, 9]
        [("ghost", VMVal.num 1)]).2.cuboid_index ≠
       spaceA.cuboid_index) := by
  refine ⟨mutate_by_ids_unknown_first, ?_, ?_,
    mutate_by_coordinate_unknown_first, select_by_coordinate_state,
    by decide⟩
  · intro s name kwargs h
    unfold Space.mutate_by_name Space.select_by_name
    rw [h]
  · intro s name key val rest hkey
    unfold Space.mutate_by_name
    split
    · rfl
    · rename_i ps cs heq
      rw [mutate_by_ids_unknown_first s ps cs key val rest hkey]

/-- Witness for C1 (amended) at concrete inputs. -/
theorem C1_amended_witness :
    Space.init.mutate_by_ids [] [] [("ghost", VMVal.num 1)] =
      (some BBError.unknownProperty, Space.init) ∧
    Space.init.mutate_by_name "nobody" [] =
      (some BBError.unboundName, Space.init) ∧
    (spaceA.mutate_by_name "a" [("ghost", VMVal.num 1)]).2 = spaceA ∧
    (spaceA.mutate_by_coordinate [9, 9, 9] [("ghost", VMVal.num 1)]).2 =
      (spaceA.select_by_coordinate [9, 9, 9]).2.2 :=
  ⟨C1_amended_failed_mutation_no_effect.1 Space.init [] [] "ghost"
      (VMVal.num 1) [] rfl,
   C1_amended_failed_mutation_no_effect.2.1 Space.init "nobody" [] rfl,
   C1_amended_failed_mutation_no_effect.2.2.1 spaceA "a" "ghost"
      (VMVal.num 1) [] (by decide),
   (C1_amended_failed_mutation_no_effect.2.2.2.1 spaceA 9 9 9 "ghost"
      (VMVal.num 1) [] (by decide)).2⟩

/-- C2, code-bug evidence: from the reachable state with one primitive
(`primitive_counter = 1`, capacity 10), `add_composite` of a 20-row
composite performs its single reallocation to capacity
`2 * growLoop 10 20 = 20`, which is less than
`primitive_counter + 20 = 21`, so the 20 new rows do not fit into the
grown store and the bulk write fails — against the claim that the
capacity after the (at most one) reallocation is at least
`primitive_counter + k`. -/
theorem C2_growth_shortfall :
    (Space.init.add_cube (cubeAt (0, 0, 0) none)).2.primitive_counter = 1 ∧
    (Space.init.add_cube (cubeAt (0, 0, 0) none)).2.capacity = 10 ∧
    grownCapacity 10 1 20 = 20 ∧
    ((Space.init.add_cube (cubeAt (0, 0, 0) none)).2.add_composite
      (compAt 20 (0, 0, 0) "default" none)).1 = some BBError.indexError ∧
    ((Space.init.add_cube (cubeAt (0, 0, 0) none)).2.add_composite
      (compAt 20 (0, 0, 0) "default" none)).2.capacity = 20 := by decide

/-- C3, counterexample: a successful `mutate_by_name` call changes the
visual metadata store but appends nothing to the change log. -/
theorem C3_counterexample :
    (spaceA.mutate_by_name "a" [("alpha", VMVal.num 1)]).1 = none ∧
    (spaceA.mutate_by_name "a"
      [("alpha", VMVal.num 1)]).2.cuboid_visual_metadata ≠
      spaceA.cuboid_visual_metadata ∧
    (spaceA.mutate_by_name "a" [("alpha", VMVal.num 1)]).2.changelog =
      spaceA.changelog := by decide

/-- C3 (amended): only the `add_*` operations update the bounds tracker
and append (exactly one Addition) to the change log. `mutate_by_ids` and
`mutate_by_name` rewrite nothing but the visual metadata store;
`mutate_by_coordinate` rewrites nothing but the visual metadata store
and the index's shared iterator cursors (the index records stay intact);
`snapshot` changes nothing but `scene_counter`. In particular no
`mutate_by_*` call and no `snapshot` ever appends to the change log or
touches the bounds tracker. -/
theorem C3_amended_changelog_bounds :
    (∀ (s : Space) (c : Cube) (s' : Space), s.add_cube c = (none, s') →
       s'.changelog = s.changelog ++
         [SpaceStateChange.addition s.time_step none] ∧
       s'.total = vadd s.total (vmean c.points) ∧
       s'.mean = vdiv (vadd s.total (vmean c.points))
         ((s.primitive_counter : ℚ) + 1)) ∧
    (∀ (s : Space) (c : Cube) (s' : Space), s.add_cuboid c = (none, s') →
       s'.changelog = s.changelog ++
         [SpaceStateChange.addition s.time_step none] ∧
       s'.total = vadd s.total (vmean c.points)) ∧
    (∀ (s : Space) (comp : CompositeCube) (s' : Space),
       s.add_composite comp = (none, s') →
       s'.changelog = s.changelog ++
         [SpaceStateChange.addition s.time_step none] ∧
       s'.total = vadd s.total (vmean (compPoints comp.faces))) ∧
    (∀ (s : Space) (prims : List Nat) (comps : List SliceRange)
       (kwargs : List (String × VMVal)),
       (s.mutate_by_ids prims comps kwargs).2 =
         { s with cuboid_visual_metadata :=
             (s.mutate_by_ids prims comps
               kwargs).2.cuboid_visual_metadata }) ∧
    (∀ (s : Space) (name : String) (kwargs : List (String × VMVal)),
       (s.mutate_by_name name kwargs).2 =
         { s with cuboid_visual_metadata :=
             (s.mutate_by_name name kwargs).2.cuboid_visual_metadata }) ∧
    (∀ (s : Space) (coordinate : List ℚ)
       (kwargs : List (String × VMVal)),
       (s.mutate_by_coordinate coordinate kwargs).2 =
         { (s.select_by_coordinate coordinate).2.2 with
           cuboid_visual_metadata :=
             (s.mutate_by_coordinate coordinate
               kwargs).2.cuboid_visual_metadata } ∧
       (s.mutate_by_coordinate coordinate
           kwargs).2.cuboid_index.primRecords =
         s.cuboid_index.primRecords ∧
       (s.mutate_by_coordinate coordinate
           kwargs).2.cuboid_index.compRecords =
         s.cuboid_index.compRecords) ∧
    (∀ s : Space, (s.snapshot).2 =
       { s with scene_counter := (s.snapshot).2.scene_counter }) := by
  refine ⟨?_, ?_, ?_, ?_, mutate_by_name_state, ?_, snapshot_state⟩
  · intro s c s' h
    obtain ⟨-, -, -, hlog, htot, hmean, -, -⟩ := add_cube_ok s c s' h
    exact ⟨hlog, htot, hmean⟩
  · intro s c s' h
    obtain ⟨-, -, -, hlog, htot, -, -, -⟩ := add_cube_ok s c s' h
    exact ⟨hlog, htot⟩
  · intro s comp s' h
    obtain ⟨-, -, -, hlog, htot, -, -, -, -, -⟩ :=
      add_composite_ok s comp s' h
    exact ⟨hlog, htot⟩
  · intro s prims comps kwargs
    exact mutate_by_ids_state prims comps kwargs s
  · intro s coordinate kwargs
    refine ⟨mutate_by_coordinate_state s coordinate kwargs, ?_, ?_⟩
    · rw [mutate_by_coordinate_state s coordinate kwargs]
      exact (select_by_coordinate_state s coordinate).2.1
    · rw [mutate_by_coordinate_state s coordinate kwargs]
      exact (select_by_coordinate_state s coordinate).2.2

/-- Witness for C3 (amended) at concrete inputs. -/
theorem C3_amended_witness :
    spaceA.changelog = Space.init.changelog ++
      [SpaceStateChange.addition 0 none] ∧
    (Space.init.add_composite
        (compAt 2 (1, 1, 1) "default" none)).2.changelog =
      Space.init.changelog ++ [SpaceStateChange.addition 0 none] ∧
    (Space.init.mutate_by_ids [] [] []).2 =
      { Space.init with cuboid_visual_metadata :=
          (Space.init.mutate_by_ids [] [] []).2.cuboid_visual_metadata } ∧
    (spaceA.mutate_by_coordinate [9, 9, 9]
        [("alpha", VMVal.num 1)]).2.cuboid_index.primRecords =
      spaceA.cuboid_index.primRecords ∧
    (Space.init.snapshot).2 = { Space.init with scene_counter :=
      (Space.init.snapshot).2.scene_counter } :=
  ⟨(C3_amended_changelog_bounds.1 Space.init (cubeAt (0, 0, 0) (some "a"))
      spaceA (eq_none_pair _ (by decide))).1,
   (C3_amended_changelog_bounds.2.2.1 Space.init
      (compAt 2 (1, 1, 1) "default" none) _
      (eq_none_pair _ (by decide))).1,
   C3_amended_changelog_bounds.2.2.2.1 Space.init [] [] [],
   (C3_amended_changelog_bounds.2.2.2.2.2.1 spaceA [9, 9, 9]
      [("alpha", VMVal.num 1)]).2.1,
   C3_amended_changelog_bounds.2.2.2.2.2.2 Space.init⟩

theorem foldl_vadd_replicate (n : Nat) (p : Vec3) :
    ∀ acc : Vec3, List.foldl vadd acc (List.replicate n p) =
      vadd acc ((n : ℚ) * p.1, (n : ℚ) * p.2.1, (n : ℚ) * p.2.2) := by
  induction n with
  | zero =>
    intro acc
    simp [vadd]
  | succ m ih =>
    intro acc
    rw [List.replicate_succ, List.foldl_cons, ih]
    simp only [vadd, Prod.mk.injEq]
    refine ⟨by push_cast; ring, by push_cast; ring, by push_cast; ring⟩

theorem vmean_replicate (n : Nat) (hn : n ≠ 0) (p : Vec3) :
    vmean (List.replicate n p) = p := by
  obtain ⟨x, y, z⟩ := p
  have hq : (n : ℚ) ≠ 0 := Nat.cast_ne_zero.mpr hn
  unfold vmean vsum
  rw [foldl_vadd_replicate]
  simp only [List.length_replicate, vadd, vdiv, Prod.mk.injEq]
  refine ⟨?_, ?_, ?_⟩ <;>
    (rw [zero_add, mul_div_cancel_left₀ _ hq])

theorem flatten_replicate_replicate {α : Type} (n m : Nat) (a : α) :
    (List.replicate n (List.replicate m a)).flatten =
      List.replicate (n * m) a := by
  induction n with
  | zero => simp
  | succ i ih =>
    rw [List.replicate_succ, List.flatten_cons, ih, ← List.replicate_add]
    congr 1
    ring

theorem compPoints_compAt (k : Nat) (p : Vec3) (st : String)
    (nm : Option String) :
    compPoints (compAt k p st nm).faces = List.replicate (k * 24) p := by
  unfold compPoints compAt primPoints
  dsimp only
  rw [List.map_replicate, flatten_replicate_replicate 6 4 p,
    flatten_replicate_replicate]

/-- C4, counterexample: adding a composite of 2 rows to a fresh space
leaves `mean = total / 1` (the composite counts as one object in the
denominator) while `primitive_counter = 2`, so
`mean ≠ total / primitive_counter`. -/
theorem C4_counterexample :
    (Space.init.add_composite (compAt 2 (1, 1, 1) "default" none)).1 =
      none ∧
    (Space.init.add_composite (compAt 2 (1, 1, 1) "default" none)).2.mean ≠
      vdiv (Space.init.add_composite
          (compAt 2 (1, 1, 1) "default" none)).2.total
        (((Space.init.add_composite
          (compAt 2 (1, 1, 1) "default" none)).2.primitive_counter : ℚ)) := by
  have h1 : (Space.init.add_composite
      (compAt 2 (1, 1, 1) "default" none)).1 = none := by decide
  refine ⟨h1, ?_⟩
  obtain ⟨hpc, -, -, -, htot, hmean, -, -, -, -⟩ :=
    add_composite_ok _ _ _ (eq_none_pair _ h1)
  rw [hmean, htot, hpc, compPoints_compAt,
    vmean_replicate _ (by norm_num)]
  simp only [Space.init, vadd, vdiv, compAt, List.length_replicate]
  norm_num [Prod.ext_iff]

/-- C4 (amended): after `add_cube`/`add_cuboid` the invariant
`mean = total / primitive_counter` holds; after `add_composite` of `k`
rows the denominator is instead `primitive_counter - k + 1`: the
composite adds `k` to `primitive_counter` but only 1 to the denominator
that `mean` was computed with. -/
theorem C4_amended_mean_denominator :
    (∀ (s : Space) (c : Cube) (s' : Space), s.add_cube c = (none, s') →
       s'.mean = vdiv s'.total ((s'.primitive_counter : ℚ))) ∧
    (∀ (s : Space) (c : Cube) (s' : Space), s.add_cuboid c = (none, s') →
       s'.mean = vdiv s'.total ((s'.primitive_counter : ℚ))) ∧
    (∀ (s : Space) (comp : CompositeCube) (s' : Space),
       s.add_composite comp = (none, s') →
       s'.primitive_counter = s.primitive_counter + comp.faces.length ∧
       s'.mean = vdiv s'.total
         (((s'.primitive_counter - comp.faces.length + 1 : Nat) : ℚ))) := by
  have hcube : ∀ (s : Space) (c : Cube) (s' : Space),
      s.add_cube c = (none, s') →
      s'.mean = vdiv s'.total ((s'.primitive_counter : ℚ)) := by
    intro s c s' h
    obtain ⟨hpc, -, -, -, htot, hmean, -, -⟩ := add_cube_ok s c s' h
    rw [hmean, htot, hpc]
    push_cast
    rfl
  refine ⟨hcube, ?_, ?_⟩
  · intro s c s' h
    exact hcube s c s' h
  · intro s comp s' h
    obtain ⟨hpc, -, -, -, htot, hmean, -, -, -, -⟩ :=
      add_composite_ok s comp s' h
    refine ⟨hpc, ?_⟩
    rw [hmean, htot, hpc]
    have harith : s.primitive_counter + comp.faces.length -
        comp.faces.length + 1 = s.primitive_counter + 1 := by omega
    rw [harith]
    push_cast
    rfl

/-- Witness for C4 (amended) at concrete inputs. -/
theorem C4_amended_witness :
    (Space.init.add_cube (cubeAt (0, 0, 0) none)).2.mean =
      vdiv (Space.init.add_cube (cubeAt (0, 0, 0) none)).2.total
        (((Space.init.add_cube
          (cubeAt (0, 0, 0) none)).2.primitive_counter : ℚ)) ∧
    (Space.init.add_composite (compAt 2 (1, 1, 1) "default" none)).2.mean =
      vdiv (Space.init.add_composite
          (compAt 2 (1, 1, 1) "default" none)).2.total
        ((((Space.init.add_composite
            (compAt 2 (1, 1, 1) "default" none)).2.primitive_counter -
          (compAt 2 (1, 1, 1) "default" none).faces.length + 1 : Nat) : ℚ)) :=
  ⟨C4_amended_mean_denominator.1 _ _ _ (eq_none_pair _ (by decide)),
   (C4_amended_mean_denominator.2.2 _ _ _ (eq_none_pair _ (by decide))).2⟩

/-- C5, counterexample: a composite whose style is neither the default
nor "classic" is accepted — so it is not the case that every style other
than the supported default fails as unimplemented. -/
theorem C5_counterexample :
    (compAt 2 (1, 1, 1) "plain" none).style ≠ "default" ∧
    (Space.init.add_composite (compAt 2 (1, 1, 1) "plain" none)).1 =
      none := by decide

/-- C5 (amended): `add_composite` raises NotImplementedError exactly for
the style "classic" (and only after the composite's rows have already
been committed); every other style value, the default included, never
fails with that error. -/
theorem C5_amended_style_check :
    (∀ (s : Space) (comp : CompositeCube), comp.style = "classic" →
       s.primitive_counter + comp.faces.length ≤
         grownCapacity s.capacity s.primitive_counter comp.faces.length →
       (s.add_composite comp).1 = some BBError.notImplemented) ∧
    (∀ (s : Space) (comp : CompositeCube), comp.style ≠ "classic" →
       (s.add_composite comp).1 ≠ some BBError.notImplemented) := by
  constructor
  · intro s comp hstyle hcap
    unfold Space.add_composite
    dsimp only
    rw [if_pos hcap, if_pos hstyle]
  · intro s comp hstyle
    unfold Space.add_composite
    dsimp only
    rw [if_neg hstyle]
    split
    · split
      · rename_i e heq
        rcases add_name_error _ _ _ _ heq with he | he <;> simp [he]
      · simp
    · simp

/-- Witness for C5 (amended) at concrete inputs. -/
theorem C5_amended_witness :
    (Space.init.add_composite (compAt 2 (1, 1, 1) "classic" none)).1 =
      some BBError.notImplemented ∧
    (Space.init.add_composite (compAt 2 (1, 1, 1) "default" none)).1 ≠
      some BBError.notImplemented :=
  ⟨C5_amended_style_check.1 Space.init
      (compAt 2 (1, 1, 1) "classic" none) rfl (by decide),
   C5_amended_style_check.2 Space.init
      (compAt 2 (1, 1, 1) "default" none) (by decide)⟩

/-- C6, counterexample: two cubes with distinct base vectors; selecting
the second one's coordinate yields the match list `[1]`, yet the
selection returns no primitives and no composites — the insertion-order
cursor stands at primitive 0 and advances only on a match, so the match
`1` is dropped. Selection is therefore not "exactly the matching ids". -/
theorem C6_counterexample :
    (((Space.init.add_cube (cubeAt (0, 0, 0) none)).2.add_cube
        (cubeAt (1, 0, 0) none)).2.matchingBaseVectors (1, 0, 0) = [1]) ∧
    ((((Space.init.add_cube (cubeAt (0, 0, 0) none)).2.add_cube
        (cubeAt (1, 0, 0) none)).2.select_by_coordinate [1, 0, 0]).1 =
      none) ∧
    ((((Space.init.add_cube (cubeAt (0, 0, 0) none)).2.add_cube
        (cubeAt (1, 0, 0) none)).2.select_by_coordinate [1, 0, 0]).2.1 =
      ([], [])) := by decide

/-- C6 (amended): selection by coordinate permutes the caller's
`(w, h, d)` to the internal `(w, d, h)` and never errors on a 3-vector,
but returns only a SUBSET of the primitives/composites whose stored base
vector equals the permuted target: an id is emitted only while it agrees
with the insertion-order cursors, which advance only on a match. When
nothing matches, the result is a pair of empty lists. -/
theorem C6_amended_selection (s : Space) (w h d : ℚ) :
    (s.select_by_coordinate [w, h, d]).1 = none ∧
    (∀ x ∈ (s.select_by_coordinate [w, h, d]).2.1.1,
       x ∈ s.matchingBaseVectors (w, d, h)) ∧
    (∀ c ∈ (s.select_by_coordinate [w, h, d]).2.1.2,
       c.start ∈ s.matchingBaseVectors (w, d, h)) ∧
    (s.matchingBaseVectors (w, d, h) = [] →
       (s.select_by_coordinate [w, h, d]).2.1 = ([], [])) := by
  refine ⟨rfl, ?_, ?_, ?_⟩
  · intro x hx
    dsimp only [Space.select_by_coordinate] at hx
    rcases selectWalk_prims_subset _ _ _ _ _ _ x hx with h0 | h1
    · simp at h0
    · exact h1
  · intro c hc
    dsimp only [Space.select_by_coordinate] at hc
    rcases selectWalk_comps_subset _ _ _ _ _ _ c hc with h0 | h1
    · simp at h0
    · exact h1
  · intro hm
    dsimp only [Space.select_by_coordinate]
    rw [hm]
    rfl

/-- Witness for C6 (amended): on a fresh space nothing matches, and the
selection returns empty lists without an error. -/
theorem C6_amended_witness :
    (Space.init.select_by_coordinate [5, 5, 5]).1 = none ∧
    (Space.init.select_by_coordinate [5, 5, 5]).2.1 = ([], []) :=
  ⟨(C6_amended_selection Space.init 5 5 5).1,
   (C6_amended_selection Space.init 5 5 5).2.2.2 (by decide)⟩

/-- C7: `snapshot` fails with InvalidScene and leaves the state (hence
`scene_counter`) unchanged when the pending scene has no recorded
activity; when the pending scene has activity it succeeds and increments
`scene_counter` by exactly 1; and a successful `add_cube` always records
activity for the pending scene. -/
theorem C7_snapshot_scene_validity :
    (∀ s : Space, sceneHasActivity s.cuboid_index s.scene_counter = false →
       s.snapshot = (some BBError.invalidScene, s)) ∧
    (∀ s : Space, sceneHasActivity s.cuboid_index s.scene_counter = true →
       (s.snapshot).1 = none ∧
       (s.snapshot).2.scene_counter = s.scene_counter + 1) ∧
    (∀ (s : Space) (c : Cube) (s' : Space), s.add_cube c = (none, s') →
       sceneHasActivity s'.cuboid_index s'.scene_counter = true) := by
  refine ⟨?_, ?_, ?_⟩
  · intro s hf
    unfold Space.snapshot
    rw [current_scene_is_valid_succ, hf]
    simp
  · intro s ht
    unfold Space.snapshot
    rw [current_scene_is_valid_succ, ht]
    simp
  · intro s c s' h
    obtain ⟨-, -, -, -, -, -, hscene, hidx⟩ := add_cube_ok s c s' h
    rw [hidx, hscene]
    unfold sceneHasActivity SpaceIndex.add_primitive_to_index
    simp

/-- Witness for C7 at concrete inputs: a fresh space rejects `snapshot`
unchanged; after one addition the snapshot succeeds and bumps the scene
counter from 0 to 1. -/
theorem C7_witness :
    Space.init.snapshot = (some BBError.invalidScene, Space.init) ∧
    sceneHasActivity spaceA.cuboid_index spaceA.scene_counter = true ∧
    (spaceA.snapshot).1 = none ∧
    (spaceA.snapshot).2.scene_counter = spaceA.scene_counter + 1 := by
  have hact : sceneHasActivity spaceA.cuboid_index spaceA.scene_counter =
      true :=
    C7_snapshot_scene_validity.2.2 Space.init (cubeAt (0, 0, 0) (some "a"))
      spaceA (eq_none_pair _ (by decide))
  exact ⟨C7_snapshot_scene_validity.1 Space.init (by decide), hact,
    (C7_snapshot_scene_validity.2.1 spaceA hact).1,
    (C7_snapshot_scene_validity.2.1 spaceA hact).2⟩

/-- C8: every successful `add_cube` / `add_cuboid` call advances
`time_step` by 1, `num_objs` by 1 and `primitive_counter` by 1; every
successful `add_composite` of `k` rows advances `time_step` by 1,
`num_objs` by 1 and `primitive_counter` by `k`. -/
theorem C8_insertion_counters :
    (∀ (s : Space) (c : Cube) (s' : Space), s.add_cube c = (none, s') →
       s'.time_step = s.time_step + 1 ∧ s'.num_objs = s.num_objs + 1 ∧
       s'.primitive_counter = s.primitive_counter + 1) ∧
    (∀ (s : Space) (c : Cube) (s' : Space), s.add_cuboid c = (none, s') →
       s'.time_step = s.time_step + 1 ∧ s'.num_objs = s.num_objs + 1 ∧
       s'.primitive_counter = s.primitive_counter + 1) ∧
    (∀ (s : Space) (comp : CompositeCube) (s' : Space),
       s.add_composite comp = (none, s') →
       s'.time_step = s.time_step + 1 ∧ s'.num_objs = s.num_objs + 1 ∧
       s'.primitive_counter = s.primitive_counter + comp.faces.length) := by
  have hcube : ∀ (s : Space) (c : Cube) (s' : Space),
      s.add_cube c = (none, s') →
      s'.time_step = s.time_step + 1 ∧ s'.num_objs = s.num_objs + 1 ∧
      s'.primitive_counter = s.primitive_counter + 1 := by
    intro s c s' h
    obtain ⟨hpc, hnum, htime, -, -, -, -, -⟩ := add_cube_ok s c s' h
    exact ⟨htime, hnum, hpc⟩
  refine ⟨hcube, ?_, ?_⟩
  · intro s c s' h
    exact hcube s c s' h
  · intro s comp s' h
    obtain ⟨hpc, hnum, htime, -, -, -, -, -, -, -⟩ :=
      add_composite_ok s comp s' h
    exact ⟨htime, hnum, hpc⟩

/-- Witness for C8 at concrete inputs: one cube, one cuboid and one
12-row composite added in sequence each advance `time_step` and
`num_objs` by 1, while `primitive_counter` advances by 1, 1 and 12. -/
theorem C8_witness :
    spaceA.time_step = Space.init.time_step + 1 ∧
    spaceA.num_objs = Space.init.num_objs + 1 ∧
    spaceA.primitive_counter = Space.init.primitive_counter + 1 ∧
    (spaceA.add_cuboid (cubeAt (2, 2, 2) none)).2.time_step =
      spaceA.time_step + 1 ∧
    (spaceA.add_cuboid (cubeAt (2, 2, 2) none)).2.primitive_counter =
      spaceA.primitive_counter + 1 ∧
    (spaceA.add_composite (compAt 12 (3, 3, 3) "default" none)).2.num_objs =
      spaceA.num_objs + 1 ∧
    (spaceA.add_composite
        (compAt 12 (3, 3, 3) "default" none)).2.primitive_counter =
      spaceA.primitive_counter +
        (compAt 12 (3, 3, 3) "default" none).faces.length := by
  obtain ⟨h1, h2, h3⟩ := C8_insertion_counters.1 Space.init
    (cubeAt (0, 0, 0) (some "a")) spaceA (eq_none_pair _ (by decide))
  obtain ⟨h4, -, h5⟩ := C8_insertion_counters.2.1 spaceA
    (cubeAt (2, 2, 2) none) _ (eq_none_pair _ (by decide))
  obtain ⟨-, h6, h7⟩ := C8_insertion_counters.2.2 spaceA
    (compAt 12 (3, 3, 3) "default" none) _ (eq_none_pair _ (by decide))
  exact ⟨h1, h2, h3, h4, h5, h6, h7⟩

/-- C9: inserting a named composite of 3 rows and then resolving the
name returns no primitive ids and exactly one composite range whose
`stop - start` is 3. -/
theorem C9_composite_name_roundtrip (s : Space) (comp : CompositeCube)
    (s' : Space) (n : String) (h : s.add_composite comp = (none, s'))
    (hn : comp.name = some n) (hk : comp.faces.length = 3) :
    ∃ sl : SliceRange, s'.select_by_name n = .ok ([], [sl]) ∧
      sl.stop - sl.start = 3 := by
  obtain ⟨-, -, -, -, -, -, -, -, -, hname⟩ := add_composite_ok s comp s' h
  obtain ⟨hfind, happ⟩ := hname n hn
  refine ⟨⟨s.primitive_counter, s.primitive_counter + comp.faces.length⟩,
    ?_, by dsimp only; omega⟩
  unfold Space.select_by_name
  rw [happ, List.find?_append, hfind]
  simp

/-- Witness for C9 at a concrete input. -/
theorem C9_witness :
    ∃ sl : SliceRange,
      ((Space.init.add_composite
        (compAt 3 (1, 1, 1) "default" (some "trio"))).2.select_by_name
          "trio") = .ok ([], [sl]) ∧ sl.stop - sl.start = 3 :=
  C9_composite_name_roundtrip Space.init
    (compAt 3 (1, 1, 1) "default" (some "trio")) _ "trio"
    (eq_none_pair _ (by decide)) rfl rfl

/-- C10: every successful `add_cube` / `add_cuboid` / `add_composite`
appends exactly one Addition entry to the change log, and its `name`
field is `None` even when the inserted object carries a name. -/
theorem C10_changelog_addition_name_none :
    (∀ (s : Space) (c : Cube) (s' : Space), s.add_cube c = (none, s') →
       s'.changelog = s.changelog ++
         [SpaceStateChange.addition s.time_step none]) ∧
    (∀ (s : Space) (c : Cube) (s' : Space), s.add_cuboid c = (none, s') →
       s'.changelog = s.changelog ++
         [SpaceStateChange.addition s.time_step none]) ∧
    (∀ (s : Space) (comp : CompositeCube) (s' : Space),
       s.add_composite comp = (none, s') →
       s'.changelog = s.changelog ++
         [SpaceStateChange.addition s.time_step none]) := by
  have hcube : ∀ (s : Space) (c : Cube) (s' : Space),
      s.add_cube c = (none, s') →
      s'.changelog = s.changelog ++
        [SpaceStateChange.addition s.time_step none] := by
    intro s c s' h
    obtain ⟨-, -, -, hlog, -, -, -, -⟩ := add_cube_ok s c s' h
    exact hlog
  refine ⟨hcube, ?_, ?_⟩
  · intro s c s' h
    exact hcube s c s' h
  · intro s comp s' h
    obtain ⟨-, -, -, hlog, -, -, -, -, -, -⟩ := add_composite_ok s comp s' h
    exact hlog

/-- Witness for C10: a named cube and a named composite each append one
Addition carrying `none` as its name. -/
theorem C10_witness :
    spaceA.changelog = Space.init.changelog ++
      [SpaceStateChange.addition Space.init.time_step none] ∧
    (spaceA.add_composite
        (compAt 2 (1, 1, 1) "default" (some "b"))).2.changelog =
      spaceA.changelog ++
        [SpaceStateChange.addition spaceA.time_step none] :=
  ⟨C10_changelog_addition_name_none.1 Space.init
      (cubeAt (0, 0, 0) (some "a")) spaceA (eq_none_pair _ (by decide)),
   C10_changelog_addition_name_none.2.2 spaceA
      (compAt 2 (1, 1, 1) "default" (some "b")) _
      (eq_none_pair _ (by decide))⟩
